import Mathlib

/-!
Verification of the client-side portfolio script (src/js/script.js).

The script defines four components: `ThemeManager`, `NavigationManager`,
`FormValidator` and the coordinator `PortfolioApp`.  Each is embedded below as
a pure state-transition model: DOM side effects become explicit action/event
lists, `sessionStorage` reads become an `Except Unit (Option String)` value
(`error` = the read threw, `ok none` = key absent), and timers become
parameters of the transition functions.  Strings typed by the user are
modelled as `List Char`.
-/

-- =============================================================================
-- CONFIG (script.js lines 16-36)
-- =============================================================================

/-- `CONFIG.THEME.DEFAULT` (line 18). -/
def CONFIG_THEME_DEFAULT : String := "dark"

/-- Own properties of the object literal `CONFIG.THEME.ICONS` (line 20):
`{ light: '🌙', dark: '☀️' }`. -/
def CONFIG_THEME_ICONS (theme : String) : Option String :=
  if theme = "light" then some "🌙"
  else if theme = "dark" then some "☀️"
  else none

/-- Property names that every plain JS object literal inherits from
`Object.prototype`.  Looking any of these up on `CONFIG.THEME.ICONS` yields a
function (or, for `__proto__`, an object), i.e. a truthy value. -/
def objectPrototypeProps : List String :=
  ["constructor", "hasOwnProperty", "isPrototypeOf", "propertyIsEnumerable",
   "toLocaleString", "toString", "valueOf",
   "__defineGetter__", "__defineSetter__", "__lookupGetter__",
   "__lookupSetter__", "__proto__"]

/-- Truthiness of the JS property access `CONFIG.THEME.ICONS[theme]`, used as a
membership test at lines 64 and 104.  Both icon strings are non-empty, hence
truthy; property lookup also walks the prototype chain, so names inherited
from `Object.prototype` come out truthy as well. -/
def iconsLookupTruthy (theme : String) : Bool :=
  (CONFIG_THEME_ICONS theme).isSome || objectPrototypeProps.contains theme

-- =============================================================================
-- ThemeManager (script.js lines 42-109)
-- =============================================================================

/-- DOM / storage side effects performed by `ThemeManager`. -/
inductive ThemeAction where
  /-- `apply(theme)` (lines 72-79): sets/removes `data-theme` on `body` and
  runs the transient `theme-transition` class. -/
  | applyToDocument (theme : String)
  /-- `save()` (lines 93-99): `sessionStorage.setItem` of the current theme. -/
  | persist (theme : String)
  /-- `updateButton()` (lines 81-91): icon / aria updates on the toggle, which
  happen only when the toggle control exists (line 82). -/
  | updateButton
deriving DecidableEq, Repr

/-- The mutable state of a `ThemeManager` instance: `this.currentTheme` and
whether `this.button` (the `.theme-toggle` control) was found at line 50. -/
structure ThemeManager where
  currentTheme : String
  hasButton : Bool
deriving DecidableEq, Repr

/-- `loadSavedTheme()` (lines 101-108):
`saved && CONFIG.THEME.ICONS[saved] ? saved : CONFIG.THEME.DEFAULT`, with any
storage exception caught and mapped to the default. -/
def ThemeManager.loadSavedTheme : Except Unit (Option String) → String
  | Except.error _ => CONFIG_THEME_DEFAULT
  | Except.ok none => CONFIG_THEME_DEFAULT
  | Except.ok (some saved) =>
      if saved ≠ "" ∧ iconsLookupTruthy saved = true then saved
      else CONFIG_THEME_DEFAULT

/-- `set(theme)` (lines 63-70): rejects values whose `ICONS` lookup is falsy,
otherwise stores the theme and performs apply / save / updateButton. -/
def ThemeManager.set (tm : ThemeManager) (theme : String) :
    ThemeManager × List ThemeAction :=
  if iconsLookupTruthy theme = false then (tm, [])
  else
    ({ currentTheme := theme, hasButton := tm.hasButton },
     [ThemeAction.applyToDocument theme, ThemeAction.persist theme] ++
       (if tm.hasButton then [ThemeAction.updateButton] else []))

/-- `toggle()` (lines 58-61): flips light to dark and anything else to light,
then delegates to `set`.  Note that it performs no check of `this.button`. -/
def ThemeManager.toggle (tm : ThemeManager) : ThemeManager × List ThemeAction :=
  tm.set (if tm.currentTheme = "light" then "dark" else "light")

/-- Result of `new ThemeManager()`: the instance state, whether the click
listener of line 54 was attached, and the DOM actions performed. -/
structure ThemeInitResult where
  tm : ThemeManager
  listenerAttached : Bool
  actions : List ThemeAction
deriving DecidableEq, Repr

/-- Constructor plus `init()` (lines 43-56): `currentTheme` starts at the
default, and when the toggle control is missing `init` returns at line 51
without reading storage, attaching the listener or applying the theme. -/
def ThemeManager.init (buttonPresent : Bool)
    (storage : Except Unit (Option String)) : ThemeInitResult :=
  if buttonPresent then
    let t := ThemeManager.loadSavedTheme storage
    ⟨⟨t, true⟩, true, [ThemeAction.applyToDocument t]⟩
  else ⟨⟨CONFIG_THEME_DEFAULT, false⟩, false, []⟩

-- =============================================================================
-- Claim C2 — toggle() when the toggle control was not found
-- =============================================================================

/-- Claim C2, counterexample.  The claim states that after a construction in
which the toggle control was not found, `toggle()` is a no-op.  On the state
produced by exactly that construction, `toggle()` in fact changes
`currentTheme` from `dark` to `light`, applies the new theme to the document
and persists it: `toggle` (lines 58-61) and `set` (lines 63-70) never consult
`this.button`. -/
theorem toggle_without_button_not_noop :
    (ThemeManager.init false (Except.ok none)).tm.currentTheme = "dark" ∧
    (ThemeManager.init false (Except.ok none)).tm.hasButton = false ∧
    ((ThemeManager.init false (Except.ok none)).tm.toggle).1.currentTheme = "light" ∧
    ThemeAction.applyToDocument "light" ∈
      ((ThemeManager.init false (Except.ok none)).tm.toggle).2 ∧
    ThemeAction.persist "light" ∈
      ((ThemeManager.init false (Except.ok none)).tm.toggle).2 := by
  decide

/-- Claim C2, amended.  When the toggle control is not found at construction,
no click listener is attached (so the control can never trigger `toggle`), but
a direct `toggle()` call is not a no-op: it flips `currentTheme`, applies the
new theme to the document, and persists it; only the toggle-control update is
skipped. -/
theorem toggle_without_button_behaviour (tm : ThemeManager)
    (storage : Except Unit (Option String)) (h : tm.hasButton = false) :
    (ThemeManager.init false storage).listenerAttached = false ∧
    (tm.toggle).1.currentTheme =
      (if tm.currentTheme = "light" then "dark" else "light") ∧
    ThemeAction.applyToDocument
      (if tm.currentTheme = "light" then "dark" else "light") ∈ (tm.toggle).2 ∧
    ThemeAction.persist
      (if tm.currentTheme = "light" then "dark" else "light") ∈ (tm.toggle).2 ∧
    ThemeAction.updateButton ∉ (tm.toggle).2 := by
  have hdark : iconsLookupTruthy "dark" = true := by decide
  have hlight : iconsLookupTruthy "light" = true := by decide
  refine ⟨rfl, ?_⟩
  by_cases ht : tm.currentTheme = "light" <;>
    simp [ThemeManager.toggle, ThemeManager.set, ht, hdark, hlight, h]

/-- Claim C2, witness for the amended theorem at a concrete instance. -/
theorem toggle_without_button_behaviour_witness :
    (ThemeManager.init false (Except.ok none)).listenerAttached = false ∧
    ((⟨"dark", false⟩ : ThemeManager).toggle).1.currentTheme =
      (if (⟨"dark", false⟩ : ThemeManager).currentTheme = "light"
       then "dark" else "light") ∧
    ThemeAction.applyToDocument
      (if (⟨"dark", false⟩ : ThemeManager).currentTheme = "light"
       then "dark" else "light") ∈ ((⟨"dark", false⟩ : ThemeManager).toggle).2 ∧
    ThemeAction.persist
      (if (⟨"dark", false⟩ : ThemeManager).currentTheme = "light"
       then "dark" else "light") ∈ ((⟨"dark", false⟩ : ThemeManager).toggle).2 ∧
    ThemeAction.updateButton ∉ ((⟨"dark", false⟩ : ThemeManager).toggle).2 :=
  toggle_without_button_behaviour ⟨"dark", false⟩ (Except.ok none) rfl

-- =============================================================================
-- Claim C8 — fallback to the default theme at construction
-- =============================================================================

/-- Claim C8.  The claim says that any persisted value outside the two
enumerated themes falls back to `dark` at construction.  Absent values and
throwing reads do fall back, and so do ordinary junk values such as "blue";
but the membership test at line 104 is the truthiness of
`CONFIG.THEME.ICONS[saved]`, and property lookup consults the prototype chain,
so the persisted value "toString" — not one of the two themes — is accepted
as-is and `currentTheme` ends up as "toString", not "dark". -/
theorem loadSavedTheme_accepts_prototype_props :
    (ThemeManager.init true (Except.ok (some "toString"))).tm.currentTheme
      = "toString" ∧
    "toString" ≠ "light" ∧ "toString" ≠ "dark" ∧
    (ThemeManager.init true (Except.ok none)).tm.currentTheme = "dark" ∧
    (ThemeManager.init true (Except.error ())).tm.currentTheme = "dark" ∧
    (ThemeManager.init true (Except.ok (some "blue"))).tm.currentTheme = "dark" ∧
    (ThemeManager.init true (Except.ok (some ""))).tm.currentTheme = "dark" := by
  decide

-- =============================================================================
-- NavigationManager (script.js lines 121-393): active-section tracking
-- =============================================================================

/-- DOM updates performed by `setActiveSection` (lines 308-323). -/
inductive NavAction where
  /-- `link.classList.remove('active')` on one nav link (lines 314-316). -/
  | removeActiveClass (href : String)
  /-- `activeLink.classList.add('active')` on the link whose href anchor
  matches the section (lines 319-322). -/
  | addActiveClass (sectionId : String)
deriving DecidableEq, Repr

/-- State of a `NavigationManager` relevant to section tracking:
`this.currentSection` and the anchor targets (href values without the `#`)
of `this.navLinks` in document order. -/
structure NavigationManager where
  currentSection : String
  navLinks : List String
deriving DecidableEq, Repr

/-- `setActiveSection(sectionId)` (lines 308-323): returns unchanged with no
DOM updates when `sectionId` is already current; otherwise stores it, removes
the active class from every nav link, and adds it to the matching link when
one exists (`document.querySelector` at line 319). -/
def NavigationManager.setActiveSection (nav : NavigationManager)
    (sectionId : String) : NavigationManager × List NavAction :=
  if nav.currentSection = sectionId then (nav, [])
  else
    ({ currentSection := sectionId, navLinks := nav.navLinks },
     nav.navLinks.map NavAction.removeActiveClass ++
       (if nav.navLinks.contains sectionId
        then [NavAction.addActiveClass sectionId] else []))

/-- The IntersectionObserver callback (lines 206-213): for each intersecting
entry, in the order the observer reports them, call `setActiveSection` with
the entry's section id; the resulting DOM actions accumulate in order. -/
def NavigationManager.processEntries (nav : NavigationManager) :
    List String → NavigationManager × List NavAction
  | [] => (nav, [])
  | sectionId :: rest =>
      let r := nav.setActiveSection sectionId
      let r2 := r.1.processEntries rest
      (r2.1, r.2 ++ r2.2)

theorem setActiveSection_currentSection (nav : NavigationManager)
    (sectionId : String) :
    (nav.setActiveSection sectionId).1.currentSection = sectionId := by
  unfold NavigationManager.setActiveSection
  split
  · next h => simpa using h
  · rfl

theorem processEntries_replicate_noop (nav : NavigationManager) (i : String)
    (h : nav.currentSection = i) :
    ∀ m : Nat, nav.processEntries (List.replicate m i) = (nav, []) := by
  intro m
  induction m with
  | zero => rfl
  | succ n ih =>
      have hset : nav.setActiveSection i = (nav, []) := by
        unfold NavigationManager.setActiveSection
        simp [h]
      simp only [List.replicate, NavigationManager.processEntries, hset, ih,
        List.nil_append, List.append_nil]

-- =============================================================================
-- Claim C9 — setActiveSection with the already-current section
-- =============================================================================

/-- Claim C9.  Calling `setActiveSection` with the identifier already stored
as `currentSection` is a no-op: the state is unchanged and no DOM action (no
active-class removal or addition) is emitted.  Consequently a burst of
repeated intersection reports for the same section produces exactly the state
change and DOM updates of a single report: the section is activated once. -/
theorem setActiveSection_same_noop (nav : NavigationManager) (sectionId : String)
    (h : nav.currentSection = sectionId) :
    nav.setActiveSection sectionId = (nav, []) ∧
    ∀ (nav' : NavigationManager) (i : String) (n : Nat),
      nav'.processEntries (List.replicate (n + 1) i) = nav'.processEntries [i] := by
  constructor
  · unfold NavigationManager.setActiveSection
    simp [h]
  · intro nav' i n
    have hcur : (nav'.setActiveSection i).1.currentSection = i :=
      setActiveSection_currentSection nav' i
    have htail : ((nav'.setActiveSection i).1).processEntries (List.replicate n i)
        = ((nav'.setActiveSection i).1, []) :=
      processEntries_replicate_noop _ i hcur n
    simp only [List.replicate, NavigationManager.processEntries, htail,
      List.append_nil]

/-- Claim C9, witness at a concrete state: current section `sobre`, a repeated
report of `sobre`, and a triple report of `contato`. -/
theorem setActiveSection_same_noop_witness :
    (⟨"sobre", ["sobre", "contato"]⟩ : NavigationManager).currentSection = "sobre" ∧
    ((⟨"sobre", ["sobre", "contato"]⟩ : NavigationManager).setActiveSection "sobre"
      = (⟨"sobre", ["sobre", "contato"]⟩, []) ∧
    ∀ (nav' : NavigationManager) (i : String) (n : Nat),
      nav'.processEntries (List.replicate (n + 1) i) = nav'.processEntries [i]) :=
  ⟨rfl, setActiveSection_same_noop ⟨"sobre", ["sobre", "contato"]⟩ "sobre" rfl⟩

-- =============================================================================
-- PortfolioApp (script.js lines 839-1131): component integration wiring
-- =============================================================================

/-- The method names defined by `class ThemeManager` (lines 42-109), i.e. the
own properties of `ThemeManager.prototype`.  There is no `toggleTheme`. -/
def themeManagerClassMethods : List String :=
  ["constructor", "init", "toggle", "set", "apply", "updateButton", "save",
   "loadSavedTheme"]

/-- The method names defined by `class NavigationManager` (lines 121-393). -/
def navigationManagerClassMethods : List String :=
  ["constructor", "init", "setupEventListeners", "setupSectionObserver",
   "toggleMobileMenu", "openMobileMenu", "closeMobileMenu", "handleNavClick",
   "scrollToSection", "setActiveSection", "handleOutsideClick",
   "handleNavKeydown", "handleToggleKeydown", "navigateMenuWithArrows",
   "handleResize"]

/-- A thrown JS exception relevant to the wiring code. -/
inductive JsError where
  /-- `TypeError` from accessing `.bind` on `undefined`. -/
  | typeError
deriving DecidableEq, Repr

/-- `setupComponentIntegration()` (lines 942-966).  The theme/navigation block
reads `this.components.themeManager.toggleTheme` and immediately calls
`.bind(...)` on it (line 946).  Method lookup walks the prototype; a name not
among the class methods yields `undefined`, and `undefined.bind` throws a
`TypeError`, aborting the method before any wrapper is installed.  The
navigation/form block (lines 954-963) does the same with `scrollToSection`,
which does exist. -/
def PortfolioApp.setupComponentIntegration
    (themePresent navPresent formPresent : Bool) : Except JsError Unit := do
  if themePresent && navPresent then
    if themeManagerClassMethods.contains "toggleTheme" then pure ()
    else throw JsError.typeError
  if navPresent && formPresent then
    if navigationManagerClassMethods.contains "scrollToSection" then pure ()
    else throw JsError.typeError

/-- Coordinator state: `this.isInitialized` (line 849). -/
structure PortfolioApp where
  isInitialized : Bool
deriving DecidableEq, Repr

/-- `init()` (lines 859-883) with all three components constructed (the
normal page).  `initializeComponents` and `setupGlobalEventListeners` do not
throw; the try block therefore succeeds exactly when
`setupComponentIntegration` does, and on a throw the catch path leaves
`isInitialized` false (line 873 is never reached). -/
def PortfolioApp.init (themePresent navPresent formPresent : Bool) :
    PortfolioApp :=
  match PortfolioApp.setupComponentIntegration themePresent navPresent formPresent with
  | Except.ok _ => ⟨true⟩
  | Except.error _ => ⟨false⟩

/-- Page-level observable effects of the integration hooks. -/
inductive PageEvent where
  /-- `themeColorMeta.setAttribute('content', ...)` (line 1007). -/
  | metaThemeColorUpdate (color : String)
  /-- `document.dispatchEvent(new CustomEvent(eventName, {detail}))`
  (lines 976-980). -/
  | customEvent (eventName : String) (payload : String)
deriving DecidableEq, Repr

/-- `updateThemeSpecificElements()` (lines 1002-1009): when the
`meta[name="theme-color"]` element exists, set its content from the `body`
`data-theme` attribute. -/
def PortfolioApp.updateThemeSpecificElements (metaPresent dataThemeDark : Bool) :
    List PageEvent :=
  if metaPresent then
    [PageEvent.metaThemeColorUpdate (if dataThemeDark then "#1a1a1a" else "#ffffff")]
  else []

/-- `onThemeChange()` (lines 971-981): meta update, then the page-wide
`portfolioThemeChange` CustomEvent carrying the current theme.  In the source
this method is reachable only from the wrapper that
`setupComponentIntegration` tries to install under the name `toggleTheme`. -/
def PortfolioApp.onThemeChange (metaPresent dataThemeDark : Bool)
    (currentTheme : String) : List PageEvent :=
  PortfolioApp.updateThemeSpecificElements metaPresent dataThemeDark ++
    [PageEvent.customEvent "portfolioThemeChange" currentTheme]

/-- A click on the theme toggle control.  The listener attached at line 54 is
`() => this.toggle()`; `toggle`, `set`, `apply`, `save` and `updateButton`
(lines 58-99) perform only the `ThemeAction` effects and dispatch no page
event.  The integration wrapper — the only caller of `onThemeChange` — is
assigned to the property name `toggleTheme` (line 947), which the listener
never invokes, and the wiring throws before installing it anyway. -/
def themeToggleClick (tm : ThemeManager) :
    ThemeManager × List ThemeAction × List PageEvent :=
  ((tm.toggle).1, (tm.toggle).2, [])

-- =============================================================================
-- Claim C1 — integration wiring of the theme toggle
-- =============================================================================

/-- Claim C1.  The claim says that after `setupComponentIntegration`, every
invocation of the theme toggle also updates the meta theme-color and emits a
`portfolioThemeChange` event.  In the source, the wiring dereferences
`themeManager.toggleTheme`, but the class defines `toggle`, not `toggleTheme`;
`undefined.bind` throws a `TypeError`, the whole initialization aborts with
`isInitialized = false`, and a click on the theme toggle (which invokes
`toggle()`) updates no meta tag and dispatches no event. -/
theorem setupComponentIntegration_toggleTheme_bug :
    themeManagerClassMethods.contains "toggleTheme" = false ∧
    PortfolioApp.setupComponentIntegration true true true
      = Except.error JsError.typeError ∧
    (PortfolioApp.init true true true).isInitialized = false ∧
    ∀ tm : ThemeManager,
      (themeToggleClick tm).2.2 = [] ∧
      PageEvent.customEvent "portfolioThemeChange" (themeToggleClick tm).1.currentTheme
        ∉ (themeToggleClick tm).2.2 := by
  refine ⟨by decide, rfl, rfl, ?_⟩
  intro tm
  exact ⟨rfl, by simp [themeToggleClick]⟩

-- =============================================================================
-- FormValidator (script.js lines 406-825): string helpers and the email regex
-- =============================================================================

/-- The character set of the JS regex class \s (whitespace), which also
drives `String.prototype.trim`: ASCII whitespace plus the Unicode space
characters, U+2028, U+2029 and U+FEFF. -/
def isJsWhitespace (c : Char) : Bool :=
  c = ' ' || c = '\t' || c = '\n' || c = '\r' ||
  c.toNat = 0x0b || c.toNat = 0x0c ||
  c.toNat = 0xa0 || c.toNat = 0x1680 ||
  (0x2000 ≤ c.toNat && c.toNat ≤ 0x200a) ||
  c.toNat = 0x2028 || c.toNat = 0x2029 || c.toNat = 0x202f ||
  c.toNat = 0x205f || c.toNat = 0x3000 || c.toNat = 0xfeff

/-- `value.trim()` (line 547): strip leading and trailing whitespace. -/
def jsTrim (cs : List Char) : List Char :=
  ((cs.dropWhile isJsWhitespace).reverse.dropWhile isJsWhitespace).reverse

/-- A character matched by the regex class [^\s@] of line 604. -/
def emailCharOk (c : Char) : Bool := !isJsWhitespace c && !decide (c = '@')

/-- Split a list at the first occurrence of `a`: `some (l, r)` with
`cs = l ++ a :: r` and `a ∉ l`, or `none` when `a` does not occur. -/
def splitAtFirst (a : Char) : List Char → Option (List Char × List Char)
  | [] => none
  | c :: rest =>
      if c = a then some ([], rest)
      else (splitAtFirst a rest).map (fun p => (c :: p.1, p.2))

/-- Is there a '.' in the list that is followed by at least one character? -/
def dotProperSplit : List Char → Bool
  | [] => false
  | [_] => false
  | c :: d :: t => decide (c = '.') || dotProperSplit (d :: t)

/-- `isValidEmail(email)` (lines 601-606): the test of the anchored regex
with shape `[^\s@]+@[^\s@]+\.[^\s@]+` against the whole string.  The class
[^\s@] excludes '@', so a matching string consists of its (non-empty) text
before the first '@', the '@', and a domain part that contains no further '@'
or whitespace; the domain matches `[^\s@]+\.[^\s@]+` exactly when it has a '.'
that is neither its first character nor its last (the class does not exclude
'.', so extra dots may fall on either side). -/
def FormValidator.isValidEmail (email : List Char) : Bool :=
  match splitAtFirst '@' email with
  | none => false
  | some (l, d) =>
      !decide (l = []) && l.all emailCharOk && !decide (d = []) &&
        d.all emailCharOk && dotProperSplit (d.drop 1)

/-- The email shape as the spec words it: one-or-more non-whitespace-non-@
characters, '@', one-or-more non-whitespace-non-@ characters, '.', one-or-more
non-whitespace-non-@ characters. -/
def specEmailShape (cs : List Char) : Prop :=
  ∃ l x y : List Char,
    cs = l ++ '@' :: (x ++ '.' :: y) ∧ l ≠ [] ∧ x ≠ [] ∧ y ≠ [] ∧
    (∀ c ∈ l, emailCharOk c = true) ∧ (∀ c ∈ x, emailCharOk c = true) ∧
    (∀ c ∈ y, emailCharOk c = true)

theorem splitAtFirst_some_iff (a : Char) :
    ∀ cs l r : List Char,
      splitAtFirst a cs = some (l, r) ↔ (cs = l ++ a :: r ∧ a ∉ l)
  | [], l, r => by
      constructor
      · intro h; exact Option.noConfusion h
      · rintro ⟨h, -⟩
        have hlen := congrArg List.length h
        simp only [List.length_nil, List.length_append, List.length_cons] at hlen
        omega
  | c :: rest, l, r => by
      have ih := splitAtFirst_some_iff a rest
      unfold splitAtFirst
      by_cases hc : c = a
      · subst hc
        rw [if_pos rfl]
        constructor
        · intro h
          simp only [Option.some.injEq, Prod.mk.injEq] at h
          obtain ⟨rfl, rfl⟩ := h
          exact ⟨rfl, List.not_mem_nil _⟩
        · rintro ⟨heq, hnl⟩
          cases l with
          | nil =>
              simp only [List.nil_append, List.cons.injEq, true_and] at heq
              rw [heq]
          | cons x l' =>
              simp only [List.cons_append, List.cons.injEq] at heq
              rw [heq.1] at hnl
              exact absurd (List.mem_cons_self x l') hnl
      · rw [if_neg hc]
        cases hsp : splitAtFirst a rest with
        | none =>
            simp only [Option.map_none']
            constructor
            · intro h; exact Option.noConfusion h
            · rintro ⟨heq, hnl⟩
              cases l with
              | nil =>
                  simp only [List.nil_append, List.cons.injEq] at heq
                  exact absurd heq.1 hc
              | cons x l' =>
                  simp only [List.cons_append, List.cons.injEq] at heq
                  have h2 : splitAtFirst a rest = some (l', r) :=
                    (ih l' r).mpr ⟨heq.2, fun hm => hnl (List.mem_cons_of_mem _ hm)⟩
                  rw [hsp] at h2
                  exact Option.noConfusion h2
        | some p =>
            obtain ⟨l0, r0⟩ := p
            simp only [Option.map_some', Option.some.injEq, Prod.mk.injEq]
            obtain ⟨hrest, hnotin⟩ := (ih l0 r0).mp hsp
            constructor
            · rintro ⟨rfl, rfl⟩
              refine ⟨by rw [hrest]; rfl, ?_⟩
              intro hm
              rcases List.mem_cons.mp hm with h1 | h2
              · exact hc h1.symm
              · exact hnotin h2
            · rintro ⟨heq, hnl⟩
              cases l with
              | nil =>
                  simp only [List.nil_append, List.cons.injEq] at heq
                  exact absurd heq.1 hc
              | cons x l' =>
                  simp only [List.cons_append, List.cons.injEq] at heq
                  have h2 : splitAtFirst a rest = some (l', r) :=
                    (ih l' r).mpr ⟨heq.2, fun hm => hnl (List.mem_cons_of_mem _ hm)⟩
                  rw [hsp] at h2
                  simp only [Option.some.injEq, Prod.mk.injEq] at h2
                  exact ⟨by rw [heq.1, h2.1], h2.2⟩

theorem dotProperSplit_iff :
    ∀ t : List Char, dotProperSplit t = true ↔ ∃ u w, t = u ++ '.' :: w ∧ w ≠ []
  | [] => by
      simp only [dotProperSplit]
      constructor
      · intro h; exact Bool.noConfusion h
      · rintro ⟨u, w, h, -⟩
        have hlen := congrArg List.length h
        simp only [List.length_nil, List.length_append, List.length_cons] at hlen
        omega
  | [c] => by
      simp only [dotProperSplit]
      constructor
      · intro h; exact Bool.noConfusion h
      · rintro ⟨u, w, h, hw⟩
        cases u with
        | nil =>
            simp only [List.nil_append, List.cons.injEq] at h
            exact absurd h.2.symm hw
        | cons x u' =>
            simp only [List.cons_append, List.cons.injEq] at h
            have hlen := congrArg List.length h.2
            simp only [List.length_nil, List.length_append, List.length_cons] at hlen
            omega
  | c :: d :: t => by
      have ih := dotProperSplit_iff (d :: t)
      simp only [dotProperSplit, Bool.or_eq_true, decide_eq_true_eq]
      constructor
      · rintro (rfl | h)
        · exact ⟨[], d :: t, rfl, List.cons_ne_nil d t⟩
        · obtain ⟨u, w, heq, hw⟩ := ih.mp h
          exact ⟨c :: u, w, by rw [heq]; rfl, hw⟩
      · rintro ⟨u, w, heq, hw⟩
        cases u with
        | nil =>
            simp only [List.nil_append, List.cons.injEq] at heq
            exact Or.inl heq.1
        | cons x u' =>
            simp only [List.cons_append, List.cons.injEq] at heq
            exact Or.inr (ih.mpr ⟨u', w, heq.2, hw⟩)

theorem isValidEmail_iff_specEmailShape (cs : List Char) :
    FormValidator.isValidEmail cs = true ↔ specEmailShape cs := by
  unfold FormValidator.isValidEmail
  constructor
  · cases hsp : splitAtFirst '@' cs with
    | none => intro h; exact Bool.noConfusion h
    | some p =>
        obtain ⟨l, d⟩ := p
        intro h
        simp only [Bool.and_eq_true, List.all_eq_true, Bool.not_eq_true',
          decide_eq_false_iff_not] at h
        obtain ⟨⟨⟨⟨hl, hlok⟩, hd⟩, hdok⟩, hdot⟩ := h
        obtain ⟨heq, hnl⟩ := (splitAtFirst_some_iff '@' cs l d).mp hsp
        obtain ⟨d0, t, rfl⟩ := List.exists_cons_of_ne_nil hd
        obtain ⟨u, w, ht, hw⟩ := (dotProperSplit_iff ((d0 :: t).drop 1)).mp hdot
        simp only [List.drop_succ_cons, List.drop_zero] at ht
        refine ⟨l, d0 :: u, w, ?_, hl, List.cons_ne_nil d0 u, hw, hlok, ?_, ?_⟩
        · rw [heq, ht]; rfl
        · intro ch hcmem
          apply hdok
          rw [ht]
          rcases List.mem_cons.mp hcmem with rfl | h2
          · exact List.mem_cons_self _ _
          · exact List.mem_cons_of_mem _ (List.mem_append_left _ h2)
        · intro ch hcmem
          apply hdok
          rw [ht]
          exact List.mem_cons_of_mem _
            (List.mem_append_right _ (List.mem_cons_of_mem _ hcmem))
  · rintro ⟨l, x, y, rfl, hl, hx, hy, hlok, hxok, hyok⟩
    have hnotat : '@' ∉ l := by
      intro hm
      have := hlok '@' hm
      simp [emailCharOk] at this
    have hsp : splitAtFirst '@' (l ++ '@' :: (x ++ '.' :: y))
        = some (l, x ++ '.' :: y) :=
      (splitAtFirst_some_iff '@' _ l (x ++ '.' :: y)).mpr ⟨rfl, hnotat⟩
    rw [hsp]
    simp only [Bool.and_eq_true, List.all_eq_true, Bool.not_eq_true',
      decide_eq_false_iff_not]
    obtain ⟨a, x', rfl⟩ := List.exists_cons_of_ne_nil hx
    refine ⟨⟨⟨⟨hl, hlok⟩, by simp⟩, ?_⟩, ?_⟩
    · intro c hcmem
      simp only [List.cons_append, List.mem_cons, List.mem_append,
        List.mem_cons] at hcmem
      rcases hcmem with rfl | hcx | rfl | hcy
      · exact hxok _ (List.mem_cons_self _ _)
      · exact hxok _ (List.mem_cons_of_mem _ hcx)
      · decide
      · exact hyok _ hcy
    · have hdrop : ((a :: x') ++ '.' :: y).drop 1 = x' ++ '.' :: y := rfl
      rw [hdrop]
      exact (dotProperSplit_iff _).mpr ⟨x', y, rfl, hy⟩

-- =============================================================================
-- FormValidator: field state and validation (script.js lines 406-657)
-- =============================================================================

/-- The three contact-form fields. -/
inductive FieldName where
  | name
  | email
  | message
deriving DecidableEq, Repr

/-- Declared field order: `Object.keys(this.fields)` enumerates the fields in
insertion order (lines 412-431): name, email, message. -/
def fieldOrder : List FieldName :=
  [FieldName.name, FieldName.email, FieldName.message]

/-- Per-field state (lines 413-430) together with the presence of the DOM
elements located by `setupFormElements` (lines 464-477): the input element
(`element`) and the error display element (`errorElement`).  `errorShown` is
the text currently displayed in the error element (`none` when hidden). -/
structure FieldState where
  present : Bool
  errPresent : Bool
  value : List Char
  storedValue : List Char
  isValid : Bool
  errorShown : Option String
deriving DecidableEq, Repr

/-- The `FormValidator` instance state: the three fields, `this.isSubmitting`
(line 437), whether the submit button was found (line 476), and whether the
button is currently in its disabled/loading presentation. -/
structure FormValidator where
  name : FieldState
  email : FieldState
  message : FieldState
  isSubmitting : Bool
  submitButtonPresent : Bool
  submitLoading : Bool
deriving DecidableEq, Repr

def FormValidator.field (s : FormValidator) : FieldName → FieldState
  | FieldName.name => s.name
  | FieldName.email => s.email
  | FieldName.message => s.message

def FormValidator.setField (s : FormValidator) :
    FieldName → FieldState → FormValidator
  | FieldName.name, fs => { s with name := fs }
  | FieldName.email, fs => { s with email := fs }
  | FieldName.message, fs => { s with message := fs }

/-- Error text of line 555. -/
def requiredFieldText : String := "Este campo é obrigatório"

/-- Error text of line 565. -/
def invalidEmailText : String := "Por favor, insira um email válido"

/-- Error text of line 574. -/
def shortMessageText : String := "A mensagem deve ter pelo menos 10 caracteres"

/-- Error text of line 583. -/
def shortNameText : String := "O nome deve ter pelo menos 2 caracteres"

/-- Error text of line 685. -/
def submitFailedText : String := "Erro ao enviar mensagem. Tente novamente."

/-- `clearFieldError` (lines 627-635): returns immediately when the error
element is absent; otherwise hides the error text (it also resets the input's
error class and aria attribute, which this model folds into `errorShown`). -/
def clearErrState (fs : FieldState) : FieldState :=
  if fs.errPresent then { fs with errorShown := none } else fs

/-- `showFieldError` (lines 613-621): returns immediately when the error
element is absent; otherwise displays `msg`. -/
def showErrState (fs : FieldState) (msg : String) : FieldState :=
  if fs.errPresent then { fs with errorShown := some msg } else fs

/-- `validateField(fieldName)` (lines 542-593) acting on one field's state:
returns the updated state and the verdict.  When the input element is absent
it returns `false` at line 544 with the state untouched — in particular no
error is shown and `isValid` keeps its previous value.  Otherwise: trim and
store the value, clear any previous error, fail on the empty value first
(required check), then apply the type-specific rule: email regex, message
minimum length 10, name minimum length 2. -/
def validateFieldResult (f : FieldName) (fs : FieldState) : FieldState × Bool :=
  if fs.present = false then (fs, false)
  else
    let v := jsTrim fs.value
    let fs1 := clearErrState { fs with storedValue := v }
    if v = [] then
      (showErrState { fs1 with isValid := false } requiredFieldText, false)
    else
      match f with
      | FieldName.email =>
          if FormValidator.isValidEmail v = false then
            (showErrState { fs1 with isValid := false } invalidEmailText, false)
          else ({ fs1 with isValid := true }, true)
      | FieldName.message =>
          if v.length < 10 then
            (showErrState { fs1 with isValid := false } shortMessageText, false)
          else ({ fs1 with isValid := true }, true)
      | FieldName.name =>
          if v.length < 2 then
            (showErrState { fs1 with isValid := false } shortNameText, false)
          else ({ fs1 with isValid := true }, true)

/-- `validateField` as a transition of the whole validator state. -/
def FormValidator.validateField (s : FormValidator) (f : FieldName) :
    FormValidator × Bool :=
  (s.setField f (validateFieldResult f (s.field f)).1,
   (validateFieldResult f (s.field f)).2)

/-- `validateAllFields()` (lines 524-534): validates every field in declared
order (the `forEach` does not short-circuit) and returns whether all three
verdicts were true. -/
def FormValidator.validateAllFields (s : FormValidator) : FormValidator × Bool :=
  let r1 := s.validateField FieldName.name
  let r2 := r1.1.validateField FieldName.email
  let r3 := r2.1.validateField FieldName.message
  (r3.1, r1.2 && r2.2 && r3.2)

/-- `focusFirstError()` (lines 649-657): find the first field in declared
order whose `isValid` is false, and focus its input element when that element
exists; returns the focused field. -/
def FormValidator.focusFirstError (s : FormValidator) : Option FieldName :=
  match fieldOrder.find? (fun f => !(s.field f).isValid) with
  | some f => if (s.field f).present then some f else none
  | none => none

/-- The observable outcome of `handleSubmit` (lines 503-518). -/
inductive SubmitOutcome where
  /-- The `isSubmitting` guard of line 506 returned early. -/
  | ignored
  /-- Validation failed: `focusFirstError` ran and the handler returned. -/
  | rejected (focused : Option FieldName)
  /-- All fields valid: `simulateFormSubmission` was started. -/
  | submitted
deriving DecidableEq, Repr

/-- `handleSubmit(e)` (lines 503-518): early-return when a submission is in
flight; otherwise validate all fields; on failure focus the first invalid
field and return; on success start the simulated submission. -/
def FormValidator.handleSubmit (s : FormValidator) : FormValidator × SubmitOutcome :=
  if s.isSubmitting then (s, SubmitOutcome.ignored)
  else
    let r := s.validateAllFields
    if r.2 then (r.1, SubmitOutcome.submitted)
    else (r.1, SubmitOutcome.rejected r.1.focusFirstError)

-- =============================================================================
-- FormValidator: simulated submission (script.js lines 664-825)
-- =============================================================================

/-- Observable events of the submission routine. -/
inductive FormEvent where
  /-- The 1.5 s simulated-latency wait of line 674 was started. -/
  | latencyWaitStarted
  /-- `showSuccessMessage()` (line 677) ran. -/
  | successShown
  /-- `showErrorMessage(msg)` (line 685) ran. -/
  | errorShown (msg : String)
  /-- `clearForm()` (line 680) ran. -/
  | formCleared
deriving DecidableEq, Repr

/-- `setSubmitButtonState(isLoading)` (lines 697-714): no-op when the submit
button is absent; otherwise toggles the disabled/loading presentation. -/
def FormValidator.setSubmitButtonState (s : FormValidator) (isLoading : Bool) :
    FormValidator :=
  if s.submitButtonPresent then { s with submitLoading := isLoading } else s

/-- The per-field part of `clearForm()` (lines 813-821): fields whose input
element exists are reset to the empty value and marked invalid. -/
def clearFieldState (fs : FieldState) : FieldState :=
  if fs.present then { fs with value := [], storedValue := [], isValid := false }
  else fs

/-- `clearForm()` (lines 813-824): reset every present field, then
`clearAllErrors()` (lines 640-644) clears each field's error display. -/
def FormValidator.clearForm (s : FormValidator) : FormValidator :=
  { s with
    name := clearErrState (clearFieldState s.name),
    email := clearErrState (clearFieldState s.email),
    message := clearErrState (clearFieldState s.message) }

/-- `simulateFormSubmission()` (lines 664-691).  `failure` says whether the
awaited try block throws (the "unexpected failure during the simulated
latency" of the spec; it cannot arise from the `setTimeout` promise itself but
models any throw inside the try).  The try arm shows the success indicator
and clears the form; the catch arm shows the generic error message; the
finally arm always clears `isSubmitting` and restores the submit button. -/
def FormValidator.simulateFormSubmission (s : FormValidator) (failure : Bool) :
    FormValidator × List FormEvent :=
  let s0 := FormValidator.setSubmitButtonState { s with isSubmitting := true } true
  let r :=
    if failure then
      (s0, [FormEvent.latencyWaitStarted, FormEvent.errorShown submitFailedText])
    else
      (s0.clearForm,
       [FormEvent.latencyWaitStarted, FormEvent.successShown, FormEvent.formCleared])
  (FormValidator.setSubmitButtonState { r.1 with isSubmitting := false } false, r.2)

/-- A submit event on the form: `handleSubmit`, followed — only when it
reached line 517 — by the simulated submission. -/
def FormValidator.submit (s : FormValidator) (failure : Bool) :
    FormValidator × List FormEvent :=
  match s.handleSubmit with
  | (s1, SubmitOutcome.submitted) => s1.simulateFormSubmission failure
  | (s1, _) => (s1, [])

/-- A field whose input and error elements are present, with raw value `v`. -/
def baseField (v : List Char) : FieldState :=
  ⟨true, true, v, [], false, none⟩

/-- A contact form with all elements present and the given raw field values,
not currently submitting. -/
def testForm (nv ev mv : List Char) : FormValidator :=
  ⟨baseField nv, baseField ev, baseField mv, false, true, false⟩

-- Structural lemmas about the validator state --------------------------------

theorem clearErrState_present (fs : FieldState) :
    (clearErrState fs).present = fs.present := by
  unfold clearErrState; split <;> rfl

theorem showErrState_present (fs : FieldState) (msg : String) :
    (showErrState fs msg).present = fs.present := by
  unfold showErrState; split <;> rfl

theorem showErrState_isValid (fs : FieldState) (msg : String) :
    (showErrState fs msg).isValid = fs.isValid := by
  unfold showErrState; split <;> rfl

theorem validateFieldResult_absent (f : FieldName) (fs : FieldState)
    (h : fs.present = false) : validateFieldResult f fs = (fs, false) := by
  unfold validateFieldResult
  simp [h]

theorem validateFieldResult_present (f : FieldName) (fs : FieldState) :
    (validateFieldResult f fs).1.present = fs.present := by
  by_cases hp : fs.present = false
  · rw [validateFieldResult_absent f fs hp]
  · unfold validateFieldResult
    rw [if_neg hp]
    by_cases hv : jsTrim fs.value = []
    · rw [if_pos hv]
      simp [showErrState_present, clearErrState_present]
    · rw [if_neg hv]
      cases f
      · dsimp only
        by_cases hl : (jsTrim fs.value).length < 2
        · rw [if_pos hl]; simp [showErrState_present, clearErrState_present]
        · rw [if_neg hl]; simp [clearErrState_present]
      · dsimp only
        by_cases hm : FormValidator.isValidEmail (jsTrim fs.value) = false
        · rw [if_pos hm]; simp [showErrState_present, clearErrState_present]
        · rw [if_neg hm]; simp [clearErrState_present]
      · dsimp only
        by_cases hl : (jsTrim fs.value).length < 10
        · rw [if_pos hl]; simp [showErrState_present, clearErrState_present]
        · rw [if_neg hl]; simp [clearErrState_present]

theorem validateFieldResult_isValid (f : FieldName) (fs : FieldState)
    (h : fs.present = true) :
    (validateFieldResult f fs).1.isValid = (validateFieldResult f fs).2 := by
  unfold validateFieldResult
  rw [if_neg (by simp [h])]
  by_cases hv : jsTrim fs.value = []
  · rw [if_pos hv]
    simp [showErrState_isValid]
  · rw [if_neg hv]
    cases f
    · dsimp only
      by_cases hl : (jsTrim fs.value).length < 2
      · rw [if_pos hl]; simp [showErrState_isValid]
      · rw [if_neg hl]
    · dsimp only
      by_cases hm : FormValidator.isValidEmail (jsTrim fs.value) = false
      · rw [if_pos hm]; simp [showErrState_isValid]
      · rw [if_neg hm]
    · dsimp only
      by_cases hl : (jsTrim fs.value).length < 10
      · rw [if_pos hl]; simp [showErrState_isValid]
      · rw [if_neg hl]

theorem FormValidator.field_setField (s : FormValidator) (f g : FieldName)
    (fs : FieldState) :
    (s.setField f fs).field g = if g = f then fs else s.field g := by
  cases f <;> cases g <;> simp [FormValidator.setField, FormValidator.field]

theorem FormValidator.setField_isSubmitting (s : FormValidator) (f : FieldName)
    (fs : FieldState) : (s.setField f fs).isSubmitting = s.isSubmitting := by
  cases f <;> rfl

theorem FormValidator.setField_self (s : FormValidator) (f : FieldName) :
    s.setField f (s.field f) = s := by
  cases f <;> rfl

theorem FormValidator.validateField_absent (s : FormValidator) (f : FieldName)
    (h : (s.field f).present = false) :
    s.validateField f = (s, false) := by
  unfold FormValidator.validateField
  rw [validateFieldResult_absent f _ h]
  simp [FormValidator.setField_self]

theorem FormValidator.validateField_field_ne (s : FormValidator) (f g : FieldName)
    (h : g ≠ f) : ((s.validateField f).1).field g = s.field g := by
  unfold FormValidator.validateField
  simp [FormValidator.field_setField, h]

theorem FormValidator.validateField_isSubmitting (s : FormValidator)
    (f : FieldName) : (s.validateField f).1.isSubmitting = s.isSubmitting := by
  unfold FormValidator.validateField
  simp [FormValidator.setField_isSubmitting]

theorem FormValidator.validateField_field_present (s : FormValidator)
    (f g : FieldName) :
    (((s.validateField f).1).field g).present = (s.field g).present := by
  unfold FormValidator.validateField
  by_cases h : g = f
  · subst h
    simp [FormValidator.field_setField, validateFieldResult_present]
  · simp [FormValidator.field_setField, h]

theorem FormValidator.validateField_isValid (s : FormValidator) (f : FieldName)
    (h : (s.field f).present = true) :
    (((s.validateField f).1).field f).isValid = (s.validateField f).2 := by
  unfold FormValidator.validateField
  simp [FormValidator.field_setField, validateFieldResult_isValid f _ h]

theorem FormValidator.validateAllFields_isSubmitting (s : FormValidator) :
    (s.validateAllFields).1.isSubmitting = s.isSubmitting := by
  unfold FormValidator.validateAllFields
  simp [FormValidator.validateField_isSubmitting]

theorem FormValidator.validateAllFields_present (s : FormValidator)
    (g : FieldName) :
    (((s.validateAllFields).1).field g).present = (s.field g).present := by
  unfold FormValidator.validateAllFields
  simp [FormValidator.validateField_field_present]

theorem validateFieldResult_email_verdict (fs : FieldState)
    (h : fs.present = true) :
    (validateFieldResult FieldName.email fs).2
      = FormValidator.isValidEmail (jsTrim fs.value) := by
  unfold validateFieldResult
  rw [if_neg (by simp [h])]
  by_cases hv : jsTrim fs.value = []
  · rw [if_pos hv, hv]
    rfl
  · rw [if_neg hv]
    dsimp only
    by_cases hm : FormValidator.isValidEmail (jsTrim fs.value) = false
    · rw [if_pos hm, hm]
    · rw [if_neg hm]
      simp only [Bool.not_eq_false] at hm
      rw [hm]

theorem validateFieldResult_name_verdict (fs : FieldState)
    (h : fs.present = true) :
    ((validateFieldResult FieldName.name fs).2 = true
      ↔ 2 ≤ (jsTrim fs.value).length) := by
  unfold validateFieldResult
  rw [if_neg (by simp [h])]
  by_cases hv : jsTrim fs.value = []
  · rw [if_pos hv]
    simp [hv]
  · rw [if_neg hv]
    dsimp only
    by_cases hl : (jsTrim fs.value).length < 2
    · rw [if_pos hl]
      simp only [Bool.false_eq_true, false_iff]
      omega
    · rw [if_neg hl]
      simp only [true_iff]
      omega

theorem validateFieldResult_message_verdict (fs : FieldState)
    (h : fs.present = true) :
    ((validateFieldResult FieldName.message fs).2 = true
      ↔ 10 ≤ (jsTrim fs.value).length) := by
  unfold validateFieldResult
  rw [if_neg (by simp [h])]
  by_cases hv : jsTrim fs.value = []
  · rw [if_pos hv]
    simp [hv]
  · rw [if_neg hv]
    dsimp only
    by_cases hl : (jsTrim fs.value).length < 10
    · rw [if_pos hl]
      simp only [Bool.false_eq_true, false_iff]
      omega
    · rw [if_neg hl]
      simp only [true_iff]
      omega

theorem validateFieldResult_required_first (f : FieldName) (fs : FieldState)
    (h : fs.present = true) (he : fs.errPresent = true)
    (hv : jsTrim fs.value = []) :
    (validateFieldResult f fs).1.errorShown = some requiredFieldText ∧
    (validateFieldResult f fs).2 = false := by
  unfold validateFieldResult
  rw [if_neg (by simp [h]), if_pos hv]
  constructor
  · simp [showErrState, clearErrState, he]
  · rfl

theorem validateAllFields_name_isValid (s : FormValidator)
    (h : (s.field FieldName.name).present = true) :
    (((s.validateAllFields).1).field FieldName.name).isValid
      = (s.validateField FieldName.name).2 := by
  unfold FormValidator.validateAllFields
  dsimp only
  rw [FormValidator.validateField_field_ne _ FieldName.message FieldName.name
        (by decide),
      FormValidator.validateField_field_ne _ FieldName.email FieldName.name
        (by decide)]
  exact FormValidator.validateField_isValid s _ h

theorem validateAllFields_email_isValid (s : FormValidator)
    (h : (s.field FieldName.email).present = true) :
    (((s.validateAllFields).1).field FieldName.email).isValid
      = ((s.validateField FieldName.name).1.validateField FieldName.email).2 := by
  unfold FormValidator.validateAllFields
  dsimp only
  rw [FormValidator.validateField_field_ne _ FieldName.message FieldName.email
        (by decide)]
  refine FormValidator.validateField_isValid _ _ ?_
  rw [FormValidator.validateField_field_present]
  exact h

theorem validateAllFields_message_isValid (s : FormValidator)
    (h : (s.field FieldName.message).present = true) :
    (((s.validateAllFields).1).field FieldName.message).isValid
      = (((s.validateField FieldName.name).1.validateField
            FieldName.email).1.validateField FieldName.message).2 := by
  unfold FormValidator.validateAllFields
  dsimp only
  refine FormValidator.validateField_isValid _ _ ?_
  rw [FormValidator.validateField_field_present,
      FormValidator.validateField_field_present]
  exact h

-- =============================================================================
-- Claim C3 — a submit while isSubmitting is true is a no-op
-- =============================================================================

/-- Claim C3.  When `isSubmitting` is true, `handleSubmit` returns at the
guard of line 506: the state is unchanged (so no field validation has updated
any field, and the submitting state is not re-entered) and the submit as a
whole produces no event — in particular no simulated-latency wait starts. -/
theorem handleSubmit_inflight_noop (s : FormValidator) (failure : Bool)
    (h : s.isSubmitting = true) :
    s.handleSubmit = (s, SubmitOutcome.ignored) ∧ s.submit failure = (s, []) := by
  have hh : s.handleSubmit = (s, SubmitOutcome.ignored) := by
    unfold FormValidator.handleSubmit
    rw [if_pos h]
  refine ⟨hh, ?_⟩
  unfold FormValidator.submit
  rw [hh]

/-- Claim C3, witness: a concrete in-flight form. -/
theorem handleSubmit_inflight_noop_witness :
    ({ testForm [] [] [] with isSubmitting := true } : FormValidator).isSubmitting
      = true ∧
    (({ testForm [] [] [] with isSubmitting := true } : FormValidator).handleSubmit
      = ({ testForm [] [] [] with isSubmitting := true }, SubmitOutcome.ignored) ∧
     ({ testForm [] [] [] with isSubmitting := true } : FormValidator).submit false
      = ({ testForm [] [] [] with isSubmitting := true }, [])) :=
  ⟨rfl, handleSubmit_inflight_noop { testForm [] [] [] with isSubmitting := true }
          false rfl⟩

-- =============================================================================
-- Claim C4 — cleanup on every exit path of the simulated submission
-- =============================================================================

/-- Claim C4.  Both exit paths of `simulateFormSubmission` (success, or an
unexpected throw during the awaited try block) end in the `finally` arm of
lines 686-690: `isSubmitting` is false and the submit control is restored
(when the button is absent its state is simply untouched, never having been
set).  On failure the generic error message is shown and the success
indicator is not; on success the success indicator is shown and the form is
cleared. -/
theorem simulateFormSubmission_cleanup (s : FormValidator) (failure : Bool) :
    (s.simulateFormSubmission failure).1.isSubmitting = false ∧
    ((s.simulateFormSubmission failure).1.submitLoading
      = if s.submitButtonPresent then false else s.submitLoading) ∧
    (FormEvent.successShown ∈ (s.simulateFormSubmission failure).2
      ↔ failure = false) ∧
    (FormEvent.errorShown submitFailedText ∈ (s.simulateFormSubmission failure).2
      ↔ failure = true) ∧
    (FormEvent.formCleared ∈ (s.simulateFormSubmission failure).2
      ↔ failure = false) := by
  unfold FormValidator.simulateFormSubmission FormValidator.setSubmitButtonState
    FormValidator.clearForm
  cases failure <;> by_cases hb : s.submitButtonPresent = true <;>
    simp_all

-- =============================================================================
-- Claim C10 — a field with a missing input element blocks submission
-- =============================================================================

/-- Claim C10.  When a field's input element is absent, `validateField`
returns false at line 544 leaving the whole state untouched (so no error
message is shown), `validateAllFields` can never return true, and a submit
never reaches the simulated submission: no latency wait is ever started. -/
theorem missing_field_blocks_submission (s : FormValidator) (f : FieldName)
    (h : (s.field f).present = false) :
    s.validateField f = (s, false) ∧
    (s.validateAllFields).2 = false ∧
    (s.handleSubmit).2 ≠ SubmitOutcome.submitted ∧
    ∀ failure, FormEvent.latencyWaitStarted ∉ (s.submit failure).2 := by
  have hvf := FormValidator.validateField_absent s f h
  have hall : (s.validateAllFields).2 = false := by
    unfold FormValidator.validateAllFields
    dsimp only
    cases f
    · rw [hvf]
      simp
    · have he : ((s.validateField FieldName.name).1.field FieldName.email).present
          = false := by
        rw [FormValidator.validateField_field_present]; exact h
      rw [FormValidator.validateField_absent _ _ he]
      simp
    · have hm2 : (((s.validateField FieldName.name).1.validateField
          FieldName.email).1.field FieldName.message).present = false := by
        rw [FormValidator.validateField_field_present,
            FormValidator.validateField_field_present]
        exact h
      rw [FormValidator.validateField_absent _ _ hm2]
      simp
  have hns : (s.handleSubmit).2 ≠ SubmitOutcome.submitted := by
    unfold FormValidator.handleSubmit
    by_cases hsub : s.isSubmitting = true
    · rw [if_pos hsub]
      intro hcon; exact SubmitOutcome.noConfusion hcon
    · rw [if_neg hsub]
      dsimp only
      rw [if_neg (by simp [hall])]
      intro hcon; exact SubmitOutcome.noConfusion hcon
  refine ⟨hvf, hall, hns, ?_⟩
  intro failure
  unfold FormValidator.submit
  cases hh : s.handleSubmit with
  | mk s1 out =>
    cases out with
    | ignored => simp
    | rejected focused => simp
    | submitted =>
        rw [hh] at hns
        exact absurd rfl hns

/-- Claim C10, witness: a form whose message input element is absent. -/
theorem missing_field_blocks_submission_witness :
    ((({ testForm "Bruno".data "a@b.co".data [] with
          message := ⟨false, true, [], [], false, none⟩ } : FormValidator).field
        FieldName.message).present = false) ∧
    (({ testForm "Bruno".data "a@b.co".data [] with
         message := ⟨false, true, [], [], false, none⟩ } : FormValidator).validateField
        FieldName.message
      = ({ testForm "Bruno".data "a@b.co".data [] with
            message := ⟨false, true, [], [], false, none⟩ }, false) ∧
     (({ testForm "Bruno".data "a@b.co".data [] with
          message := ⟨false, true, [], [], false, none⟩ } : FormValidator).validateAllFields).2
        = false ∧
     (({ testForm "Bruno".data "a@b.co".data [] with
          message := ⟨false, true, [], [], false, none⟩ } : FormValidator).handleSubmit).2
        ≠ SubmitOutcome.submitted ∧
     ∀ failure, FormEvent.latencyWaitStarted ∉
        (({ testForm "Bruno".data "a@b.co".data [] with
             message := ⟨false, true, [], [], false, none⟩ } : FormValidator).submit
          failure).2) :=
  ⟨rfl, missing_field_blocks_submission
    { testForm "Bruno".data "a@b.co".data [] with
      message := ⟨false, true, [], [], false, none⟩ } FieldName.message rfl⟩

-- =============================================================================
-- Claim C6 — email validation rule
-- =============================================================================

/-- Claim C6.  The email field is marked valid exactly when its trimmed value
is non-empty and matches the spec's pattern (one-or-more non-whitespace-non-@
characters, '@', one-or-more, '.', one-or-more); in particular "a@b.co" is
valid while "a@b" and "a b@c.com" are not.  The verdict is also what is
stored in the field's `isValid`. -/
theorem email_field_validation (s : FormValidator) (h : s.email.present = true) :
    ((s.validateField FieldName.email).2 = true ↔
      (jsTrim s.email.value ≠ [] ∧ specEmailShape (jsTrim s.email.value))) ∧
    ((s.validateField FieldName.email).1.email.isValid
      = (s.validateField FieldName.email).2) ∧
    ((testForm [] ("a@b.co".data) []).validateField FieldName.email).2 = true ∧
    ((testForm [] ("a@b".data) []).validateField FieldName.email).2 = false ∧
    ((testForm [] ("a b@c.com".data) []).validateField FieldName.email).2
      = false := by
  refine ⟨?_, ?_, by decide, by decide, by decide⟩
  · have hv : (s.validateField FieldName.email).2
        = FormValidator.isValidEmail (jsTrim s.email.value) :=
      validateFieldResult_email_verdict s.email h
    rw [hv]
    constructor
    · intro hm
      have hs := (isValidEmail_iff_specEmailShape _).mp hm
      refine ⟨?_, hs⟩
      obtain ⟨l, x, y, heq, -, -, -, -, -, -⟩ := hs
      intro hnil
      rw [hnil] at heq
      have hlen := congrArg List.length heq
      simp only [List.length_nil, List.length_append, List.length_cons] at hlen
      omega
    · rintro ⟨-, hs⟩
      exact (isValidEmail_iff_specEmailShape _).mpr hs
  · exact FormValidator.validateField_isValid s FieldName.email h

/-- Claim C6, witness at the concrete instance used for the examples. -/
theorem email_field_validation_witness :
    (testForm [] ("a@b.co".data) []).email.present = true ∧
    ((((testForm [] ("a@b.co".data) []).validateField FieldName.email).2 = true ↔
        (jsTrim (testForm [] ("a@b.co".data) []).email.value ≠ [] ∧
         specEmailShape (jsTrim (testForm [] ("a@b.co".data) []).email.value))) ∧
     (((testForm [] ("a@b.co".data) []).validateField FieldName.email).1.email.isValid
        = ((testForm [] ("a@b.co".data) []).validateField FieldName.email).2) ∧
     ((testForm [] ("a@b.co".data) []).validateField FieldName.email).2 = true ∧
     ((testForm [] ("a@b".data) []).validateField FieldName.email).2 = false ∧
     ((testForm [] ("a b@c.com".data) []).validateField FieldName.email).2
        = false) :=
  ⟨rfl, email_field_validation (testForm [] ("a@b.co".data) []) rfl⟩

-- =============================================================================
-- Claim C7 — minimum-length rules on trimmed values, required check first
-- =============================================================================

/-- Claim C7.  On the trimmed value, the name field is valid exactly when its
length is at least 2 and the message field exactly when its length is at least
10 (inclusive boundaries: "Al" and a 10-character message pass, "A" and a
9-character message fail); when the trimmed value is empty the required check
fires first, showing the required-field message rather than a length
message. -/
theorem minlength_field_validation (s : FormValidator)
    (hn : s.name.present = true) (hm : s.message.present = true) :
    ((s.validateField FieldName.name).2 = true
      ↔ 2 ≤ (jsTrim s.name.value).length) ∧
    ((s.validateField FieldName.message).2 = true
      ↔ 10 ≤ (jsTrim s.message.value).length) ∧
    (s.name.errPresent = true → jsTrim s.name.value = [] →
      (s.validateField FieldName.name).1.name.errorShown
        = some requiredFieldText) ∧
    (s.message.errPresent = true → jsTrim s.message.value = [] →
      (s.validateField FieldName.message).1.message.errorShown
        = some requiredFieldText) ∧
    ((testForm ("Al".data) [] []).validateField FieldName.name).2 = true ∧
    ((testForm ("A".data) [] []).validateField FieldName.name).2 = false ∧
    ((testForm [] [] (List.replicate 10 'x')).validateField FieldName.message).2
      = true ∧
    ((testForm [] [] (List.replicate 9 'x')).validateField FieldName.message).2
      = false := by
  refine ⟨validateFieldResult_name_verdict s.name hn,
    validateFieldResult_message_verdict s.message hm, ?_, ?_,
    by decide, by decide, by decide, by decide⟩
  · intro he hv
    exact (validateFieldResult_required_first FieldName.name s.name hn he hv).1
  · intro he hv
    exact (validateFieldResult_required_first FieldName.message s.message hm he hv).1

/-- Claim C7, witness at a concrete instance. -/
theorem minlength_field_validation_witness :
    (testForm ("Al".data) [] (List.replicate 10 'x')).name.present = true ∧
    (testForm ("Al".data) [] (List.replicate 10 'x')).message.present = true ∧
    (((testForm ("Al".data) [] (List.replicate 10 'x')).validateField
        FieldName.name).2 = true
      ↔ 2 ≤ (jsTrim (testForm ("Al".data) [] (List.replicate 10 'x')).name.value).length) :=
  ⟨rfl, rfl,
    (minlength_field_validation (testForm ("Al".data) [] (List.replicate 10 'x'))
      rfl rfl).1⟩

-- =============================================================================
-- Claim C5 — invalid submit: no submission, focus on first invalid field
-- =============================================================================

/-- Position of a field in the declared order. -/
def fieldIdx : FieldName → Nat
  | FieldName.name => 0
  | FieldName.email => 1
  | FieldName.message => 2

/-- Claim C5.  On a submit with no submission in flight and at least one
invalid field, `handleSubmit` never starts a submission: `isSubmitting` stays
false, no event (in particular no latency wait) is produced, and the outcome
is a rejection that focuses exactly the first field, in declared order
name-email-message, that is marked invalid after the validation pass. -/
theorem handleSubmit_invalid_no_submit (s : FormValidator)
    (hsub : s.isSubmitting = false)
    (hp : ∀ f, (s.field f).present = true)
    (hinv : (s.validateAllFields).2 = false) :
    (s.handleSubmit).2 ≠ SubmitOutcome.submitted ∧
    (s.handleSubmit).1.isSubmitting = false ∧
    (∀ failure, (s.submit failure).2 = []) ∧
    ∃ f, (s.handleSubmit).2 = SubmitOutcome.rejected (some f) ∧
      (((s.validateAllFields).1).field f).isValid = false ∧
      ∀ g, fieldIdx g < fieldIdx f →
        (((s.validateAllFields).1).field g).isValid = true := by
  have hhs : s.handleSubmit
      = ((s.validateAllFields).1,
         SubmitOutcome.rejected (s.validateAllFields).1.focusFirstError) := by
    unfold FormValidator.handleSubmit
    rw [if_neg (by simp [hsub])]
    dsimp only
    rw [if_neg (by simp [hinv])]
  have h1 := validateAllFields_name_isValid s (hp _)
  have h2 := validateAllFields_email_isValid s (hp _)
  have h3 := validateAllFields_message_isValid s (hp _)
  have hpres : ∀ g, (((s.validateAllFields).1).field g).present = true := by
    intro g
    rw [FormValidator.validateAllFields_present]
    exact hp g
  have hver : (s.validateAllFields).2
      = ((s.validateField FieldName.name).2 &&
         ((s.validateField FieldName.name).1.validateField FieldName.email).2 &&
         (((s.validateField FieldName.name).1.validateField
             FieldName.email).1.validateField FieldName.message).2) := rfl
  have hfirst : ∃ f, (s.validateAllFields).1.focusFirstError = some f ∧
      (((s.validateAllFields).1).field f).isValid = false ∧
      ∀ g, fieldIdx g < fieldIdx f →
        (((s.validateAllFields).1).field g).isValid = true := by
    cases hb1 : (s.validateField FieldName.name).2 with
    | false =>
        have hvn : (((s.validateAllFields).1).field FieldName.name).isValid
            = false := by rw [h1, hb1]
        refine ⟨FieldName.name, ?_, hvn, ?_⟩
        · unfold FormValidator.focusFirstError fieldOrder
          rw [List.find?_cons_of_pos _ (by simp [hvn])]
          simp [hpres]
        · intro g hg
          rw [show fieldIdx FieldName.name = 0 from rfl] at hg
          exact absurd hg (Nat.not_lt_zero _)
    | true =>
        cases hb2 : ((s.validateField FieldName.name).1.validateField
            FieldName.email).2 with
        | false =>
            have hvn : (((s.validateAllFields).1).field FieldName.name).isValid
                = true := by rw [h1, hb1]
            have hve : (((s.validateAllFields).1).field FieldName.email).isValid
                = false := by rw [h2, hb2]
            refine ⟨FieldName.email, ?_, hve, ?_⟩
            · unfold FormValidator.focusFirstError fieldOrder
              rw [List.find?_cons_of_neg _ (by simp [hvn]),
                  List.find?_cons_of_pos _ (by simp [hve])]
              simp [hpres]
            · intro g hg
              cases g
              · exact hvn
              · exact absurd hg (by decide)
              · exact absurd hg (by decide)
        | true =>
            have hb3 : (((s.validateField FieldName.name).1.validateField
                FieldName.email).1.validateField FieldName.message).2 = false := by
              rw [hver, hb1, hb2] at hinv
              simpa using hinv
            have hvn : (((s.validateAllFields).1).field FieldName.name).isValid
                = true := by rw [h1, hb1]
            have hve : (((s.validateAllFields).1).field FieldName.email).isValid
                = true := by rw [h2, hb2]
            have hvm : (((s.validateAllFields).1).field FieldName.message).isValid
                = false := by rw [h3, hb3]
            refine ⟨FieldName.message, ?_, hvm, ?_⟩
            · unfold FormValidator.focusFirstError fieldOrder
              rw [List.find?_cons_of_neg _ (by simp [hvn]),
                  List.find?_cons_of_neg _ (by simp [hve]),
                  List.find?_cons_of_pos _ (by simp [hvm])]
              simp [hpres]
            · intro g hg
              cases g
              · exact hvn
              · exact hve
              · exact absurd hg (by decide)
  obtain ⟨f, hfoc, hfv, hbefore⟩ := hfirst
  refine ⟨?_, ?_, ?_, f, ?_, hfv, hbefore⟩
  · rw [hhs]
    intro hcon
    exact SubmitOutcome.noConfusion hcon
  · rw [hhs]
    dsimp only
    rw [FormValidator.validateAllFields_isSubmitting]
    exact hsub
  · intro failure
    unfold FormValidator.submit
    rw [hhs]
  · rw [hhs, hfoc]

/-- Claim C5, witness: a concrete form whose name is too short. -/
theorem handleSubmit_invalid_no_submit_witness :
    ((testForm ("A".data) ("a@b.co".data)
        (List.replicate 12 'x')).handleSubmit).2 ≠ SubmitOutcome.submitted ∧
    ((testForm ("A".data) ("a@b.co".data)
        (List.replicate 12 'x')).handleSubmit).1.isSubmitting = false ∧
    (∀ failure, ((testForm ("A".data) ("a@b.co".data)
        (List.replicate 12 'x')).submit failure).2 = []) ∧
    ∃ f, ((testForm ("A".data) ("a@b.co".data)
        (List.replicate 12 'x')).handleSubmit).2
          = SubmitOutcome.rejected (some f) ∧
      ((((testForm ("A".data) ("a@b.co".data)
          (List.replicate 12 'x')).validateAllFields).1).field f).isValid = false ∧
      ∀ g, fieldIdx g < fieldIdx f →
        ((((testForm ("A".data) ("a@b.co".data)
            (List.replicate 12 'x')).validateAllFields).1).field g).isValid
          = true :=
  handleSubmit_invalid_no_submit
    (testForm ("A".data) ("a@b.co".data) (List.replicate 12 'x')) rfl
    (fun f => by cases f <;> rfl) (by decide)
